import Mathlib

/-
Verification development for the VPS-CC-MCP tool execution engine.

Shallow embedding of the core components:
  - context.py   : ProjectContext (focus, path resolution, containment)
  - session.py   : Session (append-only log, replay), SessionManager
  - tools/base.py: BaseTool.run (validate / gate / dry-run / execute / log)
  - config.py    : ApprovalLevel, tool tier table, session TTL

Paths are modelled structurally (absolute flag plus component list), as
pathlib represents them after parsing; filesystem effects (existence
checks, symlink resolution, timestamps) are elided, with file
modification times passed as explicit integer parameters and the log
file modelled as the list of JSON records it contains, one per line.
-/

/-- A JSON value, the payload type carried in params, results and log
entries (json.dumps / json.loads round-trip is assumed faithful). -/
inductive JVal where
  | null
  | bool (b : Bool)
  | num (n : Int)
  | str (s : String)
  | arr (elems : List JVal)
  | obj (fields : List (String × JVal))

/-- A raised Python exception, as observed by the handler in
BaseTool.run: its class name and its message text. -/
structure PyExn where
  name : String
  msg : String
  deriving DecidableEq, Repr

/-- Raw parameter dictionary handed to a tool (the parsed --params JSON). -/
abbrev RawParams := List (String × JVal)

/-- A pathlib path after parsing: absolute flag and component list.
pathlib drops lone dots at parse time but keeps double-dot components. -/
structure PyPath where
  absolute : Bool
  components : List String
  deriving DecidableEq, Repr

/-- String rendering of a path, as str(Path) produces it. -/
def pathStr (p : PyPath) : String :=
  if p.absolute then "/" ++ String.intercalate "/" p.components
  else String.intercalate "/" p.components

/-- Python str.startswith: the second string is a character-level
initial segment of the first. -/
def pyStartswith (s pfx : String) : Bool :=
  pfx.data.isPrefixOf s.data

/-- Lexical normalization performed by Path.resolve on the component
list: a dot is dropped, a double dot removes the previous kept
component (at the root it is dropped), other components are kept. -/
def resolveComponents : List String → List String → List String
  | acc, [] => acc
  | acc, c :: rest =>
    if c = "." then resolveComponents acc rest
    else if c = ".." then resolveComponents acc.dropLast rest
    else resolveComponents (acc ++ [c]) rest

/-- ProjectContext from context.py: the optional focus directory. -/
structure ProjectContext where
  focusPath : Option PyPath

/-- focus_path_str property: str(focus) when a focus is set, else None. -/
def ProjectContext.focus_path_str (ctx : ProjectContext) : Option String :=
  ctx.focusPath.map pathStr

/-- The ValueError raised by resolve_path for a relative path with no
focus set. -/
def noFocusError (p : PyPath) : PyExn :=
  { name := "ValueError"
    msg := "Cannot resolve relative path \x27" ++ pathStr p ++
      "\x27 without a project focus. Use project_focus to set the current project first." }

/-- ProjectContext.resolve_path: an absolute path is returned as-is; a
relative path requires a focus (else ValueError) and is joined to the
focus and normalized, as (focus / p).resolve() does lexically. -/
def ProjectContext.resolve_path (ctx : ProjectContext) (p : PyPath) : Except PyExn PyPath :=
  if p.absolute = true then Except.ok p
  else
    match ctx.focusPath with
    | none => Except.error (noFocusError p)
    | some f =>
        Except.ok { absolute := f.absolute
                    components := resolveComponents [] (f.components ++ p.components) }

/-- ProjectContext.is_within_focus: False with no focus; otherwise
resolve the path (a ValueError yields False) and test
str(resolved).startswith(str(focus)) - a raw string prefix test. -/
def ProjectContext.is_within_focus (ctx : ProjectContext) (p : PyPath) : Bool :=
  match ctx.focusPath with
  | none => false
  | some f =>
    match ctx.resolve_path p with
    | Except.ok resolved => pyStartswith (pathStr resolved) (pathStr f)
    | Except.error _ => false

/-- Concrete focus directory /root/proj used at the failing input. -/
def focusRootProj : PyPath := { absolute := true, components := ["root", "proj"] }

/-- Concrete sibling path /root/proj2/x sharing a string prefix with
the focus without lying under it. -/
def pathRootProj2x : PyPath := { absolute := true, components := ["root", "proj2", "x"] }

/-- Claim C1, evaluated at the failing input: with focus /root/proj the
code classifies /root/proj2/x as within focus (raw string prefix test),
although /root/proj2/x does not lie under /root/proj component by
component - the sibling directory is misclassified, contradicting the
component-wise containment the claim states. -/
theorem is_within_focus_sibling_misclassified :
    ProjectContext.is_within_focus { focusPath := some focusRootProj } pathRootProj2x = true
    ∧ List.isPrefixOf focusRootProj.components pathRootProj2x.components = false := by
  constructor <;> decide

/-- Claim C9: resolving an absolute path returns it unchanged, for
every focus value including none. -/
theorem resolve_absolute_invariant (focus : Option PyPath) (p : PyPath)
    (hp : p.absolute = true) :
    ProjectContext.resolve_path { focusPath := focus } p = Except.ok p := by
  unfold ProjectContext.resolve_path
  rw [if_pos hp]

/-- Witness for claim C9 at the concrete absolute path /etc/hosts with
no focus set. -/
theorem resolve_absolute_invariant_witness :
    ProjectContext.resolve_path { focusPath := none }
      { absolute := true, components := ["etc", "hosts"] }
      = Except.ok { absolute := true, components := ["etc", "hosts"] } :=
  resolve_absolute_invariant none { absolute := true, components := ["etc", "hosts"] } rfl

/-- Claim C10: is_within_focus is a total Boolean function; with no
focus set it returns false on every input, and every resolution error
is converted to false rather than propagated. -/
theorem is_within_focus_total_safe (ctx : ProjectContext) (p : PyPath) :
    (ctx.focusPath = none → ProjectContext.is_within_focus ctx p = false)
    ∧ (∀ e, ProjectContext.resolve_path ctx p = Except.error e →
        ProjectContext.is_within_focus ctx p = false) := by
  constructor
  · intro h
    unfold ProjectContext.is_within_focus
    rw [h]
  · intro e he
    unfold ProjectContext.is_within_focus
    cases hf : ctx.focusPath with
    | none => rfl
    | some f => rw [he]

/-- Witness for claim C10: no focus plus a relative path (the case
where resolution raises) yields false, via both conjuncts. -/
theorem is_within_focus_total_safe_witness :
    ProjectContext.is_within_focus { focusPath := none }
      { absolute := false, components := ["a"] } = false :=
  (is_within_focus_total_safe { focusPath := none }
    { absolute := false, components := ["a"] }).1 rfl

/-- A session log entry, discriminated by its type field as session.py
constructs them (timestamps elided; a context_change entry carries the
project_focus value of its context dict, a tool_call entry carries the
tool name, raw params, optional result, optional error info and the
focus snapshot of its context dict). -/
inductive SessionEntry where
  | session_start
  | session_resume
  | session_continue
  | context_change (project_focus : Option String)
  | tool_call (tool : String) (params : RawParams) (result : Option JVal)
      (error : Option PyExn) (project_focus : Option String)

/-- In-memory state of a Session object together with its backing log
file, the file modelled as the list of JSON records it holds (one
newline-terminated record per list element). -/
structure SessionState where
  session_id : String
  project_focus : Option String
  entries : List SessionEntry
  file : List SessionEntry

/-- Session.append: write-through append of one record - the entry is
added at the end of the in-memory list and one JSON line is appended
at the end of the log file; prior elements are untouched. -/
def Session.append (st : SessionState) (e : SessionEntry) : SessionState :=
  { st with entries := st.entries ++ [e], file := st.file ++ [e] }

/-- One iteration of the loop in Session._load: collect the entry and,
when it is a context_change, overwrite the in-memory focus with the
project_focus value it carries. -/
def loadStep (st : SessionState) (e : SessionEntry) : SessionState :=
  { st with
    entries := st.entries ++ [e]
    project_focus :=
      match e with
      | SessionEntry.context_change f => f
      | _ => st.project_focus }

/-- Session._load: replay the log file line by line, starting from the
fresh in-memory state (no focus, no entries). -/
def Session.load (sid : String) (file : List SessionEntry) : SessionState :=
  List.foldl loadStep
    { session_id := sid, project_focus := none, entries := [], file := file } file

/-- Session.log_tool_call: append one tool_call entry capturing the
tool name, raw params, result or error, and the focus snapshot. -/
def Session.log_tool_call (st : SessionState) (tool : String) (params : RawParams)
    (result : Option JVal) (error : Option PyExn) : SessionState :=
  Session.append st (SessionEntry.tool_call tool params result error st.project_focus)

/-- The focus value carried by the last context_change entry of a log,
or none when the log holds no context_change entry. -/
def lastContextChangeFocus (l : List SessionEntry) : Option String :=
  ((l.filterMap fun e =>
      match e with
      | SessionEntry.context_change f => some f
      | _ => none).getLast?).join

/-- Pure focus fold extracted from loadStep. -/
def focusStep (acc : Option String) (e : SessionEntry) : Option String :=
  match e with
  | SessionEntry.context_change f => f
  | _ => acc

theorem foldl_loadStep_entries (l : List SessionEntry) (st : SessionState) :
    (List.foldl loadStep st l).entries = st.entries ++ l := by
  induction l generalizing st with
  | nil => simp
  | cons e rest ih =>
      rw [List.foldl_cons, ih]
      simp [loadStep]

theorem foldl_loadStep_focus (l : List SessionEntry) (st : SessionState) :
    (List.foldl loadStep st l).project_focus = List.foldl focusStep st.project_focus l := by
  induction l generalizing st with
  | nil => rfl
  | cons e rest ih =>
      rw [List.foldl_cons, List.foldl_cons, ih]
      cases e <;> rfl

theorem foldl_focusStep_last (l : List SessionEntry) (acc : Option String) :
    List.foldl focusStep acc l
      = ((l.filterMap fun e =>
          match e with
          | SessionEntry.context_change f => some f
          | _ => none).getLast?).getD acc := by
  induction l using List.reverseRecOn with
  | nil => rfl
  | append_singleton rest e ih =>
      rw [List.foldl_append, List.filterMap_append]
      cases e with
      | context_change f => simp [focusStep]
      | session_start => simpa [focusStep] using ih
      | session_resume => simpa [focusStep] using ih
      | session_continue => simpa [focusStep] using ih
      | tool_call t p r er fs => simpa [focusStep] using ih

/-- Claim C2: a freshly loaded session reports as focus the value
carried by the last context_change entry of its log in append order
(none when there is no context_change entry), whatever the entries of
other kinds around it. -/
theorem load_focus_last_context_change (sid : String) (file : List SessionEntry) :
    (Session.load sid file).project_focus = lastContextChangeFocus file := by
  unfold Session.load lastContextChangeFocus
  rw [foldl_loadStep_focus, foldl_focusStep_last]
  cases h : (file.filterMap fun e =>
      match e with
      | SessionEntry.context_change f => some f
      | _ => none).getLast? with
  | none => rfl
  | some f => rfl

theorem foldl_append_file (es : List SessionEntry) (st : SessionState) :
    (List.foldl Session.append st es).file = st.file ++ es := by
  induction es generalizing st with
  | nil => simp
  | cons e rest ih =>
      rw [List.foldl_cons, ih]
      simp [Session.append]

/-- Claim C6: a single append adds exactly one record at the end of
the log and leaves every previously written record in place; after any
sequence of appends the replayed entry list is exactly the old log
followed by the appended entries, in append order. -/
theorem append_one_record_replay_in_order (st : SessionState) (e : SessionEntry)
    (es : List SessionEntry) (sid : String) :
    (Session.append st e).file = st.file ++ [e]
    ∧ (List.foldl Session.append st es).file = st.file ++ es
    ∧ (Session.load sid (List.foldl Session.append st es).file).entries = st.file ++ es := by
  refine ⟨rfl, foldl_append_file es st, ?_⟩
  unfold Session.load
  rw [foldl_loadStep_entries, foldl_append_file]
  simp

/-- ApprovalLevel from config.py: the tiered permission system. -/
inductive ApprovalLevel where
  | auto
  | confirm
  | explicit
  deriving DecidableEq, Repr

/-- The string value of an ApprovalLevel member. -/
def ApprovalLevel.value : ApprovalLevel → String
  | ApprovalLevel.auto => "auto"
  | ApprovalLevel.confirm => "confirm"
  | ApprovalLevel.explicit => "explicit"

/-- TOOL_APPROVAL_LEVELS from config.py. -/
def TOOL_APPROVAL_LEVELS : List (String × ApprovalLevel) :=
  [("project_list", ApprovalLevel.auto),
   ("project_info", ApprovalLevel.auto),
   ("file_read", ApprovalLevel.auto),
   ("dir_tree", ApprovalLevel.auto),
   ("code_explain", ApprovalLevel.auto),
   ("code_debug", ApprovalLevel.auto),
   ("service_status", ApprovalLevel.auto),
   ("service_list", ApprovalLevel.auto),
   ("vps_status", ApprovalLevel.auto),
   ("file_write", ApprovalLevel.confirm),
   ("service_start", ApprovalLevel.confirm),
   ("service_restart", ApprovalLevel.confirm),
   ("project_focus", ApprovalLevel.auto),
   ("bash_run", ApprovalLevel.explicit),
   ("service_stop", ApprovalLevel.explicit)]

/-- get_approval_level from config.py: table lookup defaulting to
EXPLICIT for an unknown name. -/
def get_approval_level (tool_name : String) : ApprovalLevel :=
  (TOOL_APPROVAL_LEVELS.lookup tool_name).getD ApprovalLevel.explicit

/-- ErrorDetail response model from schemas/responses.py. -/
structure ErrorDetail where
  type : String
  message : String
  tool : Option String := none
  details : List (String × JVal) := []

/-- ContextInfo response model from schemas/responses.py. -/
structure ContextInfo where
  project : Option String := none
  session_id : Option String := none

/-- ToolResponse from schemas/responses.py (timestamp elided). -/
structure ToolResponse where
  success : Bool
  session_id : String
  tool : String
  approval_level : String
  dry_run : Bool := false
  result : Option JVal := none
  context : ContextInfo
  error : Option ErrorDetail := none

/-- ToolResponse.success_response constructor. -/
def ToolResponse.success_response (session_id tool approval_level : String)
    (result : JVal) (context : ContextInfo) (dry_run : Bool) : ToolResponse :=
  { success := true, session_id := session_id, tool := tool
    approval_level := approval_level, dry_run := dry_run
    result := some result, context := context, error := none }

/-- ToolResponse.error_response constructor. -/
def ToolResponse.error_response (session_id tool approval_level error_type error_message : String)
    (context : ContextInfo) : ToolResponse :=
  { success := false, session_id := session_id, tool := tool
    approval_level := approval_level, dry_run := false, result := none
    context := context
    error := some { type := error_type, message := error_message
                    tool := some tool, details := [] } }

/-- BaseToolParams from schemas/requests.py, restricted to the field
the engine itself reads (tool-specific fields are consumed only by the
tool implementation, elided here). -/
structure BaseToolParams where
  dry_run : Bool := false

/-- A registered tool as BaseTool.run observes it: its metadata (name
and tier) plus its two fallible behaviours - pydantic validation of the
raw params and the execute method (both raise PyExn on failure). -/
structure ToolSpec where
  name : String
  approval_level : ApprovalLevel
  validate : RawParams → Except PyExn BaseToolParams
  execute : BaseToolParams → Except PyExn JVal

/-- BaseTool.run from tools/base.py: validate the raw params (an
exception is caught, logged as a tool_call and returned as an error
envelope), gate EXPLICIT tools unless auto-approved (no log entry),
answer dry runs with a synthetic result (no log entry), else execute
and log the result or the caught exception. Returns the response
together with the session state after the call. -/
def BaseTool.run (tool : ToolSpec) (st : SessionState) (ctx : ProjectContext)
    (raw : RawParams) (auto_approve : Bool) : ToolResponse × SessionState :=
  let context_info : ContextInfo :=
    { project := ctx.focus_path_str, session_id := some st.session_id }
  match tool.validate raw with
  | Except.error e =>
      (ToolResponse.error_response st.session_id tool.name tool.approval_level.value
        e.name e.msg context_info,
       Session.log_tool_call st tool.name raw none (some e))
  | Except.ok params =>
      if auto_approve = false ∧ tool.approval_level = ApprovalLevel.explicit then
        (ToolResponse.error_response st.session_id tool.name tool.approval_level.value
          "ApprovalRequired"
          ("Tool \x27" ++ tool.name ++
            "\x27 requires explicit approval. Use --auto-approve flag to execute.")
          context_info,
         st)
      else if params.dry_run = true then
        (ToolResponse.success_response st.session_id tool.name tool.approval_level.value
          (JVal.obj [("dry_run", JVal.bool true),
                     ("would_execute", JVal.str tool.name),
                     ("params", JVal.obj raw),
                     ("approval_level", JVal.str tool.approval_level.value)])
          context_info true,
         st)
      else
        match tool.execute params with
        | Except.ok result =>
            (ToolResponse.success_response st.session_id tool.name
              tool.approval_level.value result context_info false,
             Session.log_tool_call st tool.name raw (some result) none)
        | Except.error e =>
            (ToolResponse.error_response st.session_id tool.name
              tool.approval_level.value e.name e.msg context_info,
             Session.log_tool_call st tool.name raw none (some e))

/-- Field lookup in an object-shaped optional result. -/
def JVal.getField (r : Option JVal) (key : String) : Option JVal :=
  match r with
  | some (JVal.obj fields) => fields.lookup key
  | _ => none

/-- Claim C3: an EXPLICIT-tier tool run with valid parameters and
without force-approve answers an ApprovalRequired error envelope and
leaves the session state (entry list and log file) untouched. -/
theorem run_explicit_denied (tool : ToolSpec) (st : SessionState) (ctx : ProjectContext)
    (raw : RawParams) (p : BaseToolParams)
    (hv : tool.validate raw = Except.ok p)
    (ht : tool.approval_level = ApprovalLevel.explicit) :
    (BaseTool.run tool st ctx raw false).1.success = false
    ∧ (BaseTool.run tool st ctx raw false).1.error.map ErrorDetail.type
        = some "ApprovalRequired"
    ∧ (BaseTool.run tool st ctx raw false).2 = st := by
  unfold BaseTool.run
  rw [hv]
  simp [ht, ToolResponse.error_response]

/-- Reads an optional Boolean field of the raw params, with a default,
as pydantic does for the dry_run field. -/
def getBoolD (raw : RawParams) (key : String) (d : Bool) : Bool :=
  match raw.lookup key with
  | some (JVal.bool b) => b
  | _ => d

/-- Fixture: a fresh session with no focus and an empty log. -/
def emptySession : SessionState :=
  { session_id := "sess_test0000", project_focus := none, entries := [], file := [] }

/-- Fixture: a context with no focus set. -/
def emptyCtx : ProjectContext := { focusPath := none }

/-- Fixture: the service_stop tool, whose tier per config.py is
EXPLICIT; its schema (ServiceControlParams) requires a string name
field, failing validation otherwise, and accepts the dry_run flag
(default false). -/
def dangerTool : ToolSpec :=
  { name := "service_stop"
    approval_level := get_approval_level "service_stop"
    validate := fun raw =>
      match raw.lookup "name" with
      | some (JVal.str _) => Except.ok { dry_run := getBoolD raw "dry_run" false }
      | _ => Except.error { name := "ValidationError", msg := "name: Field required" }
    execute := fun _ => Except.ok (JVal.str "stopped") }

/-- Fixture: the file_read tool (AUTO tier per config.py), whose
schema requires a string path field, failing validation otherwise. -/
def readerTool : ToolSpec :=
  { name := "file_read"
    approval_level := get_approval_level "file_read"
    validate := fun raw =>
      match raw.lookup "path" with
      | some (JVal.str _) => Except.ok { dry_run := getBoolD raw "dry_run" false }
      | _ => Except.error { name := "ValidationError", msg := "path: Field required" }
    execute := fun _ => Except.ok (JVal.str "contents") }

/-- Witness for claim C3: running service_stop (EXPLICIT) with valid
parameters (its required name field supplied) on a fresh session
without force-approve. -/
theorem run_explicit_denied_witness :
    (BaseTool.run dangerTool emptySession emptyCtx
        [("name", JVal.str "nginx")] false).1.success = false
    ∧ (BaseTool.run dangerTool emptySession emptyCtx
        [("name", JVal.str "nginx")] false).1.error.map ErrorDetail.type
        = some "ApprovalRequired"
    ∧ (BaseTool.run dangerTool emptySession emptyCtx
        [("name", JVal.str "nginx")] false).2 = emptySession :=
  run_explicit_denied dangerTool emptySession emptyCtx
    [("name", JVal.str "nginx")] { dry_run := false } rfl rfl

/-- Counterexample to claim C4 as stated: service_stop is a registered
tool, yet running it with valid parameters (name supplied) and dry_run
set to true, without force-approve, answers an ApprovalRequired error,
not a successful dry-run preview - the approval gate is checked before
the dry-run branch. -/
theorem run_dry_run_explicit_cex :
    (BaseTool.run dangerTool emptySession emptyCtx
        [("name", JVal.str "nginx"), ("dry_run", JVal.bool true)] false).1.success = false
    ∧ (BaseTool.run dangerTool emptySession emptyCtx
        [("name", JVal.str "nginx"), ("dry_run", JVal.bool true)] false).1.dry_run = false
    ∧ (BaseTool.run dangerTool emptySession emptyCtx
        [("name", JVal.str "nginx"), ("dry_run", JVal.bool true)] false).1.error.map
        ErrorDetail.type = some "ApprovalRequired" :=
  ⟨rfl, rfl, rfl⟩

/-- Claim C4 amended: for every tool whose invocation passes the
approval gate (force-approved, or tier not EXPLICIT), a run with
dry_run set to true answers success with the dry_run flag set, a
result carrying the operation name and its tier, and leaves the
session state (entry list and log file) untouched. -/
theorem run_dry_run_no_trace (tool : ToolSpec) (st : SessionState) (ctx : ProjectContext)
    (raw : RawParams) (p : BaseToolParams) (approve : Bool)
    (hv : tool.validate raw = Except.ok p)
    (hd : p.dry_run = true)
    (hg : approve = true ∨ tool.approval_level ≠ ApprovalLevel.explicit) :
    (BaseTool.run tool st ctx raw approve).1.success = true
    ∧ (BaseTool.run tool st ctx raw approve).1.dry_run = true
    ∧ JVal.getField (BaseTool.run tool st ctx raw approve).1.result "would_execute"
        = some (JVal.str tool.name)
    ∧ JVal.getField (BaseTool.run tool st ctx raw approve).1.result "approval_level"
        = some (JVal.str tool.approval_level.value)
    ∧ (BaseTool.run tool st ctx raw approve).2 = st := by
  have hcond : ¬ (approve = false ∧ tool.approval_level = ApprovalLevel.explicit) := by
    rcases hg with h | h
    · simp [h]
    · simp [h]
  unfold BaseTool.run
  rw [hv]
  simp [hcond, hd, ToolResponse.success_response, JVal.getField, List.lookup]

/-- Witness for the amended claim C4: a force-approved dry run of
service_stop with valid parameters (name supplied). -/
theorem run_dry_run_no_trace_witness :
    (BaseTool.run dangerTool emptySession emptyCtx
        [("name", JVal.str "nginx"), ("dry_run", JVal.bool true)] true).1.success = true
    ∧ (BaseTool.run dangerTool emptySession emptyCtx
        [("name", JVal.str "nginx"), ("dry_run", JVal.bool true)] true).1.dry_run = true
    ∧ JVal.getField (BaseTool.run dangerTool emptySession emptyCtx
        [("name", JVal.str "nginx"), ("dry_run", JVal.bool true)] true).1.result "would_execute"
        = some (JVal.str dangerTool.name)
    ∧ JVal.getField (BaseTool.run dangerTool emptySession emptyCtx
        [("name", JVal.str "nginx"), ("dry_run", JVal.bool true)] true).1.result "approval_level"
        = some (JVal.str dangerTool.approval_level.value)
    ∧ (BaseTool.run dangerTool emptySession emptyCtx
        [("name", JVal.str "nginx"), ("dry_run", JVal.bool true)] true).2 = emptySession :=
  run_dry_run_no_trace dangerTool emptySession emptyCtx
    [("name", JVal.str "nginx"), ("dry_run", JVal.bool true)]
    { dry_run := true } true rfl rfl (Or.inl rfl)

/-- Claim C5: when the raw parameters fail the tool's schema, run
answers an error envelope (success false, the raising condition's kind
and message) and appends exactly one tool_call entry tagged with that
kind and message to both the in-memory entry list and the log file. -/
theorem run_validation_error_logged (tool : ToolSpec) (st : SessionState)
    (ctx : ProjectContext) (raw : RawParams) (e : PyExn) (approve : Bool)
    (hv : tool.validate raw = Except.error e) :
    (BaseTool.run tool st ctx raw approve).1.success = false
    ∧ (BaseTool.run tool st ctx raw approve).1.error.map ErrorDetail.type = some e.name
    ∧ (BaseTool.run tool st ctx raw approve).1.error.map ErrorDetail.message = some e.msg
    ∧ (BaseTool.run tool st ctx raw approve).2.entries
        = st.entries ++ [SessionEntry.tool_call tool.name raw none (some e) st.project_focus]
    ∧ (BaseTool.run tool st ctx raw approve).2.file
        = st.file ++ [SessionEntry.tool_call tool.name raw none (some e) st.project_focus] := by
  unfold BaseTool.run
  rw [hv]
  simp [ToolResponse.error_response, Session.log_tool_call, Session.append]

/-- Witness for claim C5: file_read invoked with empty params (its
required path field missing) fails validation and the failure is
logged. -/
theorem run_validation_error_logged_witness :
    (BaseTool.run readerTool emptySession emptyCtx [] false).1.success = false
    ∧ (BaseTool.run readerTool emptySession emptyCtx [] false).1.error.map ErrorDetail.type
        = some (PyExn.name { name := "ValidationError", msg := "path: Field required" })
    ∧ (BaseTool.run readerTool emptySession emptyCtx [] false).1.error.map ErrorDetail.message
        = some (PyExn.msg { name := "ValidationError", msg := "path: Field required" })
    ∧ (BaseTool.run readerTool emptySession emptyCtx [] false).2.entries
        = emptySession.entries ++ [SessionEntry.tool_call readerTool.name [] none
            (some { name := "ValidationError", msg := "path: Field required" })
            emptySession.project_focus]
    ∧ (BaseTool.run readerTool emptySession emptyCtx [] false).2.file
        = emptySession.file ++ [SessionEntry.tool_call readerTool.name [] none
            (some { name := "ValidationError", msg := "path: Field required" })
            emptySession.project_focus] :=
  run_validation_error_logged readerTool emptySession emptyCtx []
    { name := "ValidationError", msg := "path: Field required" } false rfl

theorem resolveComponents_no_dots (l : List String) (acc : List String)
    (hacc : ∀ c ∈ acc, c ≠ "." ∧ c ≠ "..") :
    ∀ c ∈ resolveComponents acc l, c ≠ "." ∧ c ≠ ".." := by
  induction l generalizing acc with
  | nil => simpa [resolveComponents] using hacc
  | cons c rest ih =>
      by_cases h1 : c = "."
      · simp only [resolveComponents, if_pos h1]
        exact ih acc hacc
      · by_cases h2 : c = ".."
        · simp only [resolveComponents, if_neg h1, if_pos h2]
          exact ih acc.dropLast fun d hd => hacc d (List.dropLast_subset acc hd)
        · simp only [resolveComponents, if_neg h1, if_neg h2]
          refine ih (acc ++ [c]) ?_
          intro d hd
          rcases List.mem_append.mp hd with hmem | hmem
          · exact hacc d hmem
          · rcases List.mem_singleton.mp hmem with rfl
            exact ⟨h1, h2⟩

/-- Claim C8: resolving a relative path with no focus set fails with
the ValueError (never silently falling back to another base), and with
focus F set returns the join of F and the path normalized so that no
dot or double-dot component survives. -/
theorem resolve_relative_requires_focus (F p : PyPath) (hp : p.absolute = false) :
    ProjectContext.resolve_path { focusPath := none } p = Except.error (noFocusError p)
    ∧ ProjectContext.resolve_path { focusPath := some F } p
        = Except.ok { absolute := F.absolute
                      components := resolveComponents [] (F.components ++ p.components) }
    ∧ ∀ c ∈ resolveComponents [] (F.components ++ p.components), c ≠ "." ∧ c ≠ ".." := by
  refine ⟨?_, ?_, ?_⟩
  · simp [ProjectContext.resolve_path, hp]
  · simp [ProjectContext.resolve_path, hp]
  · exact resolveComponents_no_dots (F.components ++ p.components) [] (by simp)

/-- Fixture: the focus directory /tmp/proj. -/
def fTmpProj : PyPath := { absolute := true, components := ["tmp", "proj"] }

/-- Fixture: the relative path a/../b/c. -/
def pRelABC : PyPath := { absolute := false, components := ["a", "..", "b", "c"] }

/-- Witness for claim C8: resolving a/../b/c with no focus raises the
ValueError, and against focus /tmp/proj yields /tmp/proj/b/c. -/
theorem resolve_relative_requires_focus_witness :
    ProjectContext.resolve_path { focusPath := none } pRelABC
        = Except.error (noFocusError pRelABC)
    ∧ ProjectContext.resolve_path { focusPath := some fTmpProj } pRelABC
        = Except.ok { absolute := true, components := ["tmp", "proj", "b", "c"] } := by
  refine ⟨(resolve_relative_requires_focus fTmpProj pRelABC rfl).1, ?_⟩
  rw [(resolve_relative_requires_focus fTmpProj pRelABC rfl).2.1]
  rfl

/-- SESSION_TTL_HOURS from config.py. -/
def SESSION_TTL_HOURS : Int := 24

/-- Session.is_expired: the log file's modification time is older than
the TTL window relative to the current time (both in epoch seconds). -/
def Session.is_expired (now mtime : Int) : Bool :=
  decide (mtime + SESSION_TTL_HOURS * 3600 < now)

/-- A session log file on disk, as SessionManager scans them: its
stem (the session id), its modification time, and its records. -/
structure SessionFileInfo where
  session_id : String
  mtime : Int
  file : List SessionEntry

/-- The session produced when continue_last_session settles on a log
file: the replayed session with one session_continue entry appended. -/
def mkContinuedSession (f : SessionFileInfo) : SessionState :=
  Session.append (Session.load f.session_id f.file) SessionEntry.session_continue

/-- The loop of SessionManager.continue_last_session over the log
files already sorted by modification time, newest first: skip expired
files, load and continue the first non-expired one, none otherwise. -/
def continueScan (now : Int) : List SessionFileInfo → Option SessionState
  | [] => none
  | f :: rest =>
      if Session.is_expired now f.mtime = true then continueScan now rest
      else some (mkContinuedSession f)

/-- SessionManager.continue_last_session, taking the session files
after the sort by modification time descending. -/
def SessionManager.continue_last_session (now : Int)
    (sortedFiles : List SessionFileInfo) : Option SessionState :=
  continueScan now sortedFiles

/-- SessionManager.create_session: fresh id, a session_start entry. -/
def SessionManager.create_session (freshId : String) : SessionState :=
  Session.append
    { session_id := freshId, project_focus := none, entries := [], file := [] }
    SessionEntry.session_start

/-- SessionManager.get_or_create_session on the continue-last path (no
resume id): continue the most recent non-expired session, else fall
through to creating a new one. -/
def SessionManager.get_or_create_session (now : Int) (sortedFiles : List SessionFileInfo)
    (freshId : String) (continue_last : Bool) : SessionState :=
  if continue_last = true then
    match SessionManager.continue_last_session now sortedFiles with
    | some s => s
    | none => SessionManager.create_session freshId
  else SessionManager.create_session freshId

theorem continueScan_eq_find (now : Int) (files : List SessionFileInfo) :
    continueScan now files
      = (files.find? fun f => !Session.is_expired now f.mtime).map mkContinuedSession := by
  induction files with
  | nil => rfl
  | cons f rest ih =>
      cases hb : Session.is_expired now f.mtime with
      | true =>
          simp only [continueScan, if_pos hb, ih]
          rw [List.find?_cons_of_neg]
          simp [hb]
      | false =>
          simp only [continueScan]
          rw [if_neg (by simp [hb]), List.find?_cons_of_pos _ (by simp [hb])]
          rfl

/-- Claim C7: over the session logs sorted by modification time
descending, continue-most-recent returns the first non-expired one
(so an expired newest log is skipped in favour of the next one), and
get_or_create falls through to a freshly created session exactly when
every existing log is expired or none exists. -/
theorem continue_last_first_non_expired (now : Int) (files : List SessionFileInfo)
    (freshId : String) :
    SessionManager.continue_last_session now files
      = (files.find? fun f => !Session.is_expired now f.mtime).map mkContinuedSession
    ∧ (SessionManager.get_or_create_session now files freshId true
        = SessionManager.create_session freshId
        ↔ ∀ f ∈ files, Session.is_expired now f.mtime = true) := by
  refine ⟨continueScan_eq_find now files, ?_, ?_⟩
  · intro h
    by_contra hall
    push_neg at hall
    obtain ⟨f, hf, hne⟩ := hall
    have hs : (files.find? fun g => !Session.is_expired now g.mtime).isSome := by
      rw [List.find?_isSome]
      refine ⟨f, hf, ?_⟩
      simp only [Bool.not_eq_true] at hne
      simp [hne]
    obtain ⟨g, hg⟩ := Option.isSome_iff_exists.mp hs
    have hcl : SessionManager.continue_last_session now files
        = some (mkContinuedSession g) := by
      unfold SessionManager.continue_last_session
      rw [continueScan_eq_find, hg]
      rfl
    have hrun : SessionManager.get_or_create_session now files freshId true
        = mkContinuedSession g := by
      unfold SessionManager.get_or_create_session
      rw [if_pos rfl, hcl]
    rw [hrun] at h
    have hent := congrArg SessionState.entries h
    simp [mkContinuedSession, SessionManager.create_session, Session.append] at hent
    have hlast := congrArg List.getLast? hent
    simp [List.getLast?_concat] at hlast
  · intro hall
    have hnone : files.find? (fun f => !Session.is_expired now f.mtime) = none := by
      rw [List.find?_eq_none]
      intro f hf
      simp [hall f hf]
    have hcl : SessionManager.continue_last_session now files = none := by
      unfold SessionManager.continue_last_session
      rw [continueScan_eq_find, hnone]
      rfl
    unfold SessionManager.get_or_create_session
    rw [if_pos rfl, hcl]
